import Mathlib

/-
Verification of src/src/module.py (End-to-end-ASR-Pytorch building blocks):
VGGExtractor, RNNLayer, ScaleDotAttention, LocationAwareAttention.

Python name resolution is made explicit: a name the module scope of
module.py never binds (example_input, d, rnn_cell, in_dim, state, bs,
enc_len, dim, pack_padded_sequence, pad_packed_sequence) is passed to the
embedded function as an `Option` argument; the module as written supplies
`none`, and evaluating such a name raises NameError.  Fallible code
returns `Except PyError`.  Float tensors are modelled over `ℝ`, with
`Option ℝ` where `-inf` (`none` before softmax) and NaN (`none` after
softmax) can occur.
-/

/-- Exceptions of the Python fragments embedded below. -/
inductive PyError where
  | nameError (n : String)
  | attributeError (n : String)
  | valueError (msg : String)
  | unboundLocal (n : String)
  | shapeError
deriving DecidableEq

/-- Rank-3 float tensor: shape (d0, d1, d2) with real-valued entries. -/
structure Tensor3 where
  d0 : Nat
  d1 : Nat
  d2 : Nat
  data : Nat → Nat → Nat → ℝ

/-- Rank-4 float tensor: shape (d0, d1, d2, d3). -/
structure Tensor4 where
  d0 : Nat
  d1 : Nat
  d2 : Nat
  d3 : Nat
  data : Nat → Nat → Nat → Nat → ℝ

/-- Rank-3 tensor over `Option ℝ`: `none` stands for the float `-inf`
before a softmax and for the float NaN after one. -/
structure OTensor3 where
  d0 : Nat
  d1 : Nat
  d2 : Nat
  data : Nat → Nat → Nat → Option ℝ

/-- VGGExtractor.check_dim (module.py lines 27-37).  The `input_dim`
parameter is immediately shadowed: the body reads
`example_input.shape[-1]`, and `example_input` is a module-scope name that
module.py never binds, so it is passed here explicitly
(`example_input_dim?`, the last shape entry of that global if it were
bound).  On the branch for a dimension divisible by neither 13 nor 40 the
raise statement first evaluates its message, which concatenates the
module-scope name `d`; `d` is bound nowhere, so a NameError on `d` is
raised there, not the ValueError. -/
def check_dim (example_input_dim? : Option Nat) (input_dim : Nat) :
    Except PyError (Nat × Nat × Nat) :=
  match example_input_dim? with
  | none => .error (.nameError "example_input")
  | some d0 =>
    if d0 % 13 == 0 then
      .ok (d0 / 13, 13, (13 / 4) * 128)
    else if d0 % 40 == 0 then
      .ok (d0 / 40, 40, (40 / 4) * 128)
    else
      .error (.nameError "d")

/-- VGGExtractor.view_input (module.py lines 39-50): floor-divide every
length by 4, crop the time axis (dim 1) to a multiple of 4 when it is not
one already (keeping the leading frames, a pure slice `[:, :-(ts % 4), :]`),
then view (bs, ts, in_channel, freq_dim) and transpose dims 1 and 2. -/
def view_input (in_channel freq_dim : Nat) (feature : Tensor3)
    (feat_len : List Nat) : Tensor4 × List Nat :=
  let feat_len2 := feat_len.map (fun l => l / 4)
  let cropped :=
    if feature.d1 % 4 != 0 then
      { feature with d1 := feature.d1 - feature.d1 % 4 }
    else feature
  let stacked : Tensor4 :=
    { d0 := cropped.d0, d1 := in_channel, d2 := cropped.d1, d3 := freq_dim,
      data := fun b c t f => cropped.data b t (c * freq_dim + f) }
  (stacked, feat_len2)

/-- Spatial-size transform of the `extractor` stack (module.py lines
14-25): the four 3x3 stride-1 padding-1 convolutions preserve height and
width, and each of the two MaxPool2d(2, stride=2) layers floor-halves
them; the channel count ends at 128. -/
def extractor_hw (n : Nat) : Nat := n / 2 / 2

/-- Shape semantics of VGGExtractor.forward (module.py lines 52-61):
view_input, the conv/pool stack, transpose back, and flatten
(128 × freq_dim/4) into the single out_dim feature axis.  Returns the
output shape (batch, time, out_dim) and the updated lengths. -/
def vgg_forward_shape (in_channel freq_dim out_dim : Nat)
    (feature : Tensor3) (feat_len : List Nat) :
    (Nat × Nat × Nat) × List Nat :=
  let vi := view_input in_channel freq_dim feature feat_len
  ((vi.1.d0, extractor_hw vi.1.d2, out_dim), vi.2)

/-- C1: claim falsified at feature_dim = 39.  With the module scope as
written (example_input unbound) construction derives nothing — check_dim
raises NameError — and even with the global bound to a tensor of last
dimension 39, the rule of lines 30-32 returns output_dim
(13 / 4) * 128 = 384, not the claimed 416. -/
theorem vgg_check_dim_mfcc_claim_false :
    (check_dim none 39 = .error (.nameError "example_input")) ∧
    (check_dim (some 39) 39 = .ok (3, 13, 384)) ∧
    ¬ (check_dim (some 39) 39 = .ok (3, 13, 416)) := by
  refine ⟨rfl, rfl, ?_⟩
  intro h
  rw [show check_dim (some 39) 39 = Except.ok (3, 13, 384) from rfl] at h
  simp at h

/-- C1 (amended): check_dim ignores its input_dim parameter and reads the
module-scope example_input, which module.py never binds, so construction
raises NameError for every feature_dim; the dimension rule of lines 30-32,
applied to a bound example_input whose last dimension d is divisible by 13
(and not by 40), yields channels = d / 13, per-channel frequency
dimension 13, and output_dim = (13 / 4) * 128 = 384 — in particular
d = 39 yields channels 3 and output_dim 384, not 416. -/
theorem vgg_check_dim_mfcc_amended (d i j : Nat)
    (h13 : d % 13 = 0) (h40 : d % 40 ≠ 0) :
    check_dim (some d) i = .ok (d / 13, 13, 384) ∧
    check_dim none j = .error (.nameError "example_input") := by
  refine ⟨?_, rfl⟩
  simp [check_dim, h13]

/-- C1 witness: the amended rule evaluated at feature_dim 39. -/
theorem vgg_check_dim_mfcc_amended_witness :
    (39 % 13 = 0 ∧ 39 % 40 ≠ 0) ∧
    (check_dim (some 39) 39 = .ok (39 / 13, 13, 384) ∧
      check_dim none 39 = .error (.nameError "example_input")) :=
  ⟨by decide, vgg_check_dim_mfcc_amended 39 39 39 (by decide) (by decide)⟩

/-- C6: the claim is right about the intent (the code literally attempts
`raise ValueError(descriptive message)` for a dimension divisible by
neither 13 nor 40) and the code is wrong: at feature_dim = 50 construction
fails, but with a NameError on the unbound module-scope name
example_input (line 29); and even were that global bound with last
dimension 50, the raise statement's message expression reads the unbound
name `d` (line 37), so again a NameError is raised, never the ValueError. -/
theorem vgg_check_dim_error_bug :
    (check_dim none 50 = .error (.nameError "example_input")) ∧
    (check_dim (some 50) 50 = .error (.nameError "d")) ∧
    (∀ msg : String, check_dim (some 50) 50 ≠ .error (.valueError msg)) := by
  refine ⟨rfl, rfl, ?_⟩
  intro msg h
  simp [check_dim] at h

/-- C3: VGGExtractor.forward floor-divides every length entry by 4 and
crops the time axis down to the largest multiple of 4 — the kept frames
are a prefix of the input's frames (nothing is padded), no cropping
happens when time is already divisible by 4 — and for time = 17 the
output time after the two pooling halvings is 4 while a length of 17
becomes 4. -/
theorem vgg_view_input_time_downsample (ic fd od : Nat) (feature : Tensor3)
    (feat_len : List Nat) :
    ((view_input ic fd feature feat_len).2 =
        feat_len.map (fun l => l / 4)) ∧
    ((view_input ic fd feature feat_len).1.d2 =
        feature.d1 - feature.d1 % 4) ∧
    ((view_input ic fd feature feat_len).1.d2 % 4 = 0) ∧
    ((view_input ic fd feature feat_len).1.d2 ≤ feature.d1) ∧
    (∀ m, m % 4 = 0 → m ≤ feature.d1 →
        m ≤ (view_input ic fd feature feat_len).1.d2) ∧
    (feature.d1 % 4 = 0 →
        (view_input ic fd feature feat_len).1.d2 = feature.d1) ∧
    (∀ b c t f, (view_input ic fd feature feat_len).1.data b c t f =
        feature.data b t (c * fd + f)) ∧
    (feature.d1 = 17 →
        (vgg_forward_shape ic fd od feature feat_len).1.2.1 = 4) ∧
    (feat_len = [17] →
        (vgg_forward_shape ic fd od feature feat_len).2 = [4]) := by
  have hd2 : (view_input ic fd feature feat_len).1.d2 =
      feature.d1 - feature.d1 % 4 := by
    simp only [view_input]
    split
    · rfl
    · rename_i h
      simp only [bne_iff_ne, ne_eq, Decidable.not_not] at h
      omega
  have hdata : ∀ b c t f, (view_input ic fd feature feat_len).1.data b c t f =
      feature.data b t (c * fd + f) := by
    intro b c t f
    simp only [view_input]
    split <;> rfl
  refine ⟨rfl, hd2, ?_, ?_, ?_, ?_, hdata, ?_, ?_⟩
  · rw [hd2]; omega
  · rw [hd2]; omega
  · intro m hm hle; rw [hd2]; omega
  · intro h; rw [hd2]; omega
  · intro h17
    simp only [vgg_forward_shape, extractor_hw, hd2, h17]
  · intro hl
    simp [vgg_forward_shape, view_input, hl]

/-- C3 witness: the theorem applied to a concrete 1 × 17 × 39 tensor with
lengths [17]. -/
theorem vgg_view_input_time_downsample_witness :
    ((view_input 3 13 ⟨1, 17, 39, fun _ _ _ => 0⟩ [17]).2 =
        [17].map (fun l => l / 4)) ∧
    ((view_input 3 13 ⟨1, 17, 39, fun _ _ _ => 0⟩ [17]).1.d2 = 17 - 17 % 4) ∧
    ((view_input 3 13 ⟨1, 17, 39, fun _ _ _ => 0⟩ [17]).1.d2 % 4 = 0) ∧
    ((view_input 3 13 ⟨1, 17, 39, fun _ _ _ => 0⟩ [17]).1.d2 ≤ 17) ∧
    (∀ m, m % 4 = 0 → m ≤ 17 →
        m ≤ (view_input 3 13 ⟨1, 17, 39, fun _ _ _ => 0⟩ [17]).1.d2) ∧
    ((17 : Nat) % 4 = 0 →
        (view_input 3 13 ⟨1, 17, 39, fun _ _ _ => 0⟩ [17]).1.d2 = 17) ∧
    (∀ b c t f,
        (view_input 3 13 ⟨1, 17, 39, fun _ _ _ => 0⟩ [17]).1.data b c t f =
          (0 : ℝ)) ∧
    ((17 : Nat) = 17 →
        (vgg_forward_shape 3 13 384 ⟨1, 17, 39, fun _ _ _ => 0⟩
            [17]).1.2.1 = 4) ∧
    (([17] : List Nat) = [17] →
        (vgg_forward_shape 3 13 384 ⟨1, 17, 39, fun _ _ _ => 0⟩ [17]).2 =
          [4]) :=
  vgg_view_input_time_downsample 3 13 384 ⟨1, 17, 39, fun _ _ _ => 0⟩ [17]

/-- Attributes of the external torch.nn namespace that module.py uses or
names, modelled from the torch.nn documented API: torch.nn exports the
CamelCase class names below (in particular `Module`); it has no attribute
spelled with the lowercase name that the base-class expressions of lines
118 and 139 look up. -/
def nnAttrs : List String :=
  ["Module", "Sequential", "Conv2d", "ReLU", "MaxPool2d", "Conv1d",
    "Linear", "LayerNorm", "Dropout", "Softmax", "LSTM", "GRU", "RNN"]

/-- Attribute lookup `nn.<name>`: AttributeError when torch.nn has no such
attribute. -/
def getattr_nn (name : String) : Except PyError Unit :=
  if name ∈ nnAttrs then .ok () else .error (.attributeError name)

/-- Evaluation of the class statement `class ScaleDotAttention(nn.module)`
(module.py line 118): the base expression is evaluated when the class
statement executes, i.e. at module import. -/
def scaleDotAttention_class : Except PyError Unit := getattr_nn "module"

/-- Evaluation of the class statement
`class LocationAwareAttention(nn.module)` (module.py line 139). -/
def locationAwareAttention_class : Except PyError Unit := getattr_nn "module"

/-- C8: both attention class statements name nn.module (lowercase) as
their base; torch.nn defines Module, not module, so evaluating either
class statement fails with an AttributeError before any class object
exists, hence before any constructor can run. -/
theorem attention_base_class_lookup_fails :
    scaleDotAttention_class = .error (.attributeError "module") ∧
    locationAwareAttention_class = .error (.attributeError "module") ∧
    "Module" ∈ nnAttrs := by
  refine ⟨rfl, rfl, ?_⟩
  decide

/-- The fields of a successfully constructed RNNLayer that the later
methods read (the recurrent cell itself is an external nn module). -/
structure RNNState where
  out_dim : Nat
  sample_rate : Nat
  sample_style : String
  layer_norm : Bool
  dropout : ℝ

/-- Line 70 of module.py: the exposed output width of an RNNLayer. -/
def rnn_exposed_width (dim : Nat) (bidirection : Bool) (sample_rate : Nat)
    (sample_style : String) : Nat :=
  let rnn_out_dim := if bidirection then 2 * dim else dim
  if sample_rate > 1 ∧ sample_style = "concat" then sample_rate * rnn_out_dim
  else rnn_out_dim

/-- RNNLayer.__init__ (module.py lines 66-86).  Lines 69-74 compute the
widths and store the configuration; line 76 rejects a sample_style other
than drop/concat with a ValueError; line 80 then builds the recurrent
layer via `getattr(nn, rnn_cell.upper())(in_dim, dim, ...)` — but
rnn_cell and in_dim are module-scope names that module.py never binds, so
they are passed here explicitly and evaluating them (rnn_cell first)
raises NameError. -/
def rnnlayer_init (rnn_cell? : Option String) (in_dim? : Option Nat)
    (input_dim : Nat) (module_ : String) (dim : Nat) (bidirection : Bool)
    (dropout : ℝ) (layer_norm : Bool) (sample_rate : Nat)
    (sample_style : String) : Except PyError RNNState :=
  if sample_style ∉ (["drop", "concat"] : List String) then
    .error (.valueError ("Unsupported Sample Style: " ++ sample_style))
  else
    match rnn_cell? with
    | none => .error (.nameError "rnn_cell")
    | some cell =>
      match in_dim? with
      | none => .error (.nameError "in_dim")
      | some _ =>
        match getattr_nn cell.toUpper with
        | .error e => .error e
        | .ok _ =>
          .ok { out_dim := rnn_exposed_width dim bidirection sample_rate
                  sample_style,
                sample_rate := sample_rate, sample_style := sample_style,
                layer_norm := layer_norm, dropout := dropout }

/-- The time-downsampling block of RNNLayer.forward (module.py lines
102-116), as a function of the post-recurrence output tensor and the
length vector: when sample_rate > 1, lengths are floor-divided by
sample_rate; style drop keeps every sample_rate-th timestep; style concat
crops trailing timesteps not forming a full group of sample_rate and then
views each group of sample_rate consecutive timesteps as one row-major
concatenated timestep of width feature_dim * sample_rate. -/
def rnn_downsample (sample_rate : Nat) (sample_style : String)
    (output : Tensor3) (x_len : List Nat) : Tensor3 × List Nat :=
  if sample_rate > 1 then
    let x_len2 := x_len.map (fun l => l / sample_rate)
    if sample_style = "drop" then
      ({ d0 := output.d0, d1 := (output.d1 + sample_rate - 1) / sample_rate,
         d2 := output.d2,
         data := fun b t d => output.data b (sample_rate * t) d }, x_len2)
    else
      let ts := output.d1
      let cropped :=
        if ts % sample_rate != 0 then { output with d1 := ts - ts % sample_rate }
        else output
      ({ d0 := output.d0, d1 := ts / sample_rate,
         d2 := output.d2 * sample_rate,
         data := fun b j e =>
           cropped.data b (sample_rate * j + e / output.d2)
             (e % output.d2) }, x_len2)
  else (output, x_len)

/-- C9: for every argument combination whose sample_style is drop or
concat, RNNLayer construction reaches line 80 and raises NameError on the
unbound module-scope name rnn_cell (read before in_dim), so no RNNLayer
instance is ever constructed and RNNLayer.forward is unreachable. -/
theorem rnnlayer_init_name_error (input_dim : Nat) (module_ : String)
    (dim : Nat) (bidirection : Bool) (dropout : ℝ) (layer_norm : Bool)
    (sample_rate : Nat) (sample_style : String)
    (h : sample_style = "drop" ∨ sample_style = "concat") :
    rnnlayer_init none none input_dim module_ dim bidirection dropout
      layer_norm sample_rate sample_style = .error (.nameError "rnn_cell") := by
  rcases h with h | h <;> subst h <;> rfl

/-- C9 witness: a concrete valid configuration (style drop). -/
theorem rnnlayer_init_name_error_witness :
    ("drop" = "drop" ∨ "drop" = "concat") ∧
    rnnlayer_init none none 40 "LSTM" 320 true 0 false 1 "drop" =
      .error (.nameError "rnn_cell") :=
  ⟨Or.inl rfl,
    rnnlayer_init_name_error 40 "LSTM" 320 true 0 false 1 "drop" (Or.inl rfl)⟩

/-- Reduction of the concat branch of rnn_downsample at sample_rate 3:
the crop touches only the time extent, so the viewed data reads the
original rows. -/
theorem rnn_downsample_concat3 (output : Tensor3) (x_len : List Nat) :
    rnn_downsample 3 "concat" output x_len =
      ({ d0 := output.d0, d1 := output.d1 / 3, d2 := output.d2 * 3,
         data := fun b j e =>
           output.data b (3 * j + e / output.d2) (e % output.d2) },
        x_len.map (fun l => l / 3)) := by
  simp only [rnn_downsample]
  norm_num
  split
  · rename_i h
    exact absurd h (by decide)
  · have hdat : (if output.d1 % 3 = 0 then output
        else { d0 := output.d0, d1 := output.d1 - output.d1 % 3,
               d2 := output.d2, data := output.data }).data = output.data := by
      split <;> rfl
    rw [hdat]

/-- C5: with sample_rate 3 and style concat, a post-recurrence output of
time 10 is cropped to the first 9 timesteps and viewed as 3 output
timesteps, each output row the in-order concatenation of the features of
3 consecutive original rows; the exposed width of line 70 is 3 times the
recurrent output width, and every length is floor-divided by 3. -/
theorem rnn_concat_downsample (output : Tensor3) (x_len : List Nat)
    (h10 : output.d1 = 10) (hpos : 0 < output.d2) :
    ((rnn_downsample 3 "concat" output x_len).1.d1 = 3) ∧
    ((rnn_downsample 3 "concat" output x_len).1.d2 = output.d2 * 3) ∧
    ((rnn_downsample 3 "concat" output x_len).2 =
        x_len.map (fun l => l / 3)) ∧
    (output.d1 - output.d1 % 3 = 9) ∧
    (∀ b j i d, j < 3 → i < 3 → d < output.d2 →
        (rnn_downsample 3 "concat" output x_len).1.data b j
            (i * output.d2 + d) = output.data b (3 * j + i) d) ∧
    (∀ dim bi, rnn_exposed_width dim bi 3 "concat" =
        3 * (if bi then 2 * dim else dim)) := by
  rw [rnn_downsample_concat3]
  refine ⟨by rw [h10], rfl, rfl, by rw [h10], ?_, ?_⟩
  · intro b j i d hj hi hd
    have h1 : (i * output.d2 + d) / output.d2 = i := by
      rw [Nat.add_comm, Nat.add_mul_div_right _ _ hpos,
        Nat.div_eq_of_lt hd, Nat.zero_add]
    have h2 : (i * output.d2 + d) % output.d2 = d := by
      rw [Nat.add_comm, Nat.add_mul_mod_self_right, Nat.mod_eq_of_lt hd]
    show output.data b (3 * j + (i * output.d2 + d) / output.d2)
        ((i * output.d2 + d) % output.d2) = output.data b (3 * j + i) d
    rw [h1, h2]
  · intro dim bi
    simp [rnn_exposed_width]

/-- C5 witness: a concrete 1 × 10 × 2 post-recurrence output with
lengths [10]. -/
theorem rnn_concat_downsample_witness :
    ((⟨1, 10, 2, fun _ t d => (t : ℝ) + d⟩ : Tensor3).d1 = 10 ∧
      0 < (⟨1, 10, 2, fun _ t d => (t : ℝ) + d⟩ : Tensor3).d2) ∧
    (((rnn_downsample 3 "concat" ⟨1, 10, 2, fun _ t d => (t : ℝ) + d⟩
        [10]).1.d1 = 3) ∧
      ((rnn_downsample 3 "concat" ⟨1, 10, 2, fun _ t d => (t : ℝ) + d⟩
        [10]).1.d2 = (⟨1, 10, 2, fun _ t d => (t : ℝ) + d⟩ : Tensor3).d2 * 3) ∧
      ((rnn_downsample 3 "concat" ⟨1, 10, 2, fun _ t d => (t : ℝ) + d⟩
        [10]).2 = [10].map (fun l => l / 3)) ∧
      ((⟨1, 10, 2, fun _ t d => (t : ℝ) + d⟩ : Tensor3).d1 -
        (⟨1, 10, 2, fun _ t d => (t : ℝ) + d⟩ : Tensor3).d1 % 3 = 9) ∧
      (∀ b j i d, j < 3 → i < 3 →
        d < (⟨1, 10, 2, fun _ t d => (t : ℝ) + d⟩ : Tensor3).d2 →
        (rnn_downsample 3 "concat" ⟨1, 10, 2, fun _ t d => (t : ℝ) + d⟩
            [10]).1.data b j
            (i * (⟨1, 10, 2, fun _ t d => (t : ℝ) + d⟩ : Tensor3).d2 + d) =
          (⟨1, 10, 2, fun _ t d => (t : ℝ) + d⟩ : Tensor3).data b
            (3 * j + i) d) ∧
      (∀ dim bi, rnn_exposed_width dim bi 3 "concat" =
        3 * (if bi then 2 * dim else dim))) :=
  ⟨⟨rfl, by decide⟩,
    rnn_concat_downsample ⟨1, 10, 2, fun _ t d => (t : ℝ) + d⟩ [10] rfl
      (by decide)⟩

/-- torch transpose of dims 1 and 2 of a rank-3 tensor. -/
def transpose12 (x : Tensor3) : Tensor3 :=
  { d0 := x.d0, d1 := x.d2, d2 := x.d1, data := fun b i j => x.data b j i }

/-- torch.bmm: batched matrix product of (B, n, m) with (B, m, p). -/
noncomputable def bmm (x y : Tensor3) : Tensor3 :=
  { d0 := x.d0, d1 := x.d1, d2 := y.d2,
    data := fun b i j => ∑ l ∈ Finset.range x.d2, x.data b i l * y.data b l j }

/-- Division of every entry by the temperature (line 128). -/
noncomputable def scale_by (temperature : ℝ) (x : Tensor3) : Tensor3 :=
  { x with data := fun b i t => x.data b i t / temperature }

/-- masked_fill(mask, -np.inf) (lines 130-131): where the mask is true the
entry becomes the float -inf, modelled as `none`. -/
def masked_fill (x : Tensor3) (mask : Option (Nat → Nat → Nat → Bool)) :
    OTensor3 :=
  { d0 := x.d0, d1 := x.d1, d2 := x.d2,
    data := fun b i t =>
      match mask with
      | none => some (x.data b i t)
      | some m => if m b i t then none else some (x.data b i t) }

/-- exp extended to the -inf score: the float exp(-inf) is 0. -/
noncomputable def expO : Option ℝ → ℝ
  | none => 0
  | some x => Real.exp x

/-- nn.Softmax(dim=1) (line 123) on a rank-3 score tensor: each entry is
normalized along axis 1 — for the (batch·head, T_q, T_k) output of bmm
this is the query-time axis, not the key-time axis.  A column whose
denominator is 0 (all scores -inf along axis 1) yields the float NaN,
modelled as `none`. -/
noncomputable def softmax_dim1 (x : OTensor3) : OTensor3 :=
  { d0 := x.d0, d1 := x.d1, d2 := x.d2,
    data := fun b i t =>
      let denom := ∑ j ∈ Finset.range x.d1, expO (x.data b j t)
      if denom = 0 then none else some (expO (x.data b i t) / denom) }

/-- torch.bmm of the (possibly NaN) attention weights with v (line 134):
NaN propagates through products and sums. -/
noncomputable def bmm_weights (a : OTensor3) (v : Tensor3) : OTensor3 :=
  { d0 := a.d0, d1 := a.d1, d2 := v.d2,
    data := fun b i d =>
      if ∀ l ∈ Finset.range a.d2, a.data b i l ≠ none then
        some (∑ l ∈ Finset.range a.d2, (a.data b i l).getD 0 * v.data b l d)
      else none }

/-- attn.view(bs, num_head, -1) (line 135): row-major reshape. -/
def attn_view3 (bs num_head : Nat) (x : OTensor3) : OTensor3 :=
  let c := x.d0 * x.d1 * x.d2 / (bs * num_head)
  { d0 := bs, d1 := num_head, d2 := c,
    data := fun i j t =>
      let L := (i * num_head + j) * c + t
      x.data (L / (x.d1 * x.d2)) (L / x.d2 % x.d1) (L % x.d2) }

/-- The attention-weight computation of ScaleDotAttention.forward (lines
127-133): raw scores q·kᵗ, scaled by the temperature, -inf where masked,
then self.softmax — which is nn.Softmax(dim=1). -/
noncomputable def sdpa_attn (temperature : ℝ) (q k : Tensor3)
    (mask : Option (Nat → Nat → Nat → Bool)) : OTensor3 :=
  softmax_dim1 (masked_fill (scale_by temperature (bmm q (transpose12 k))) mask)

/-- ScaleDotAttention.forward (module.py lines 125-137).  Lines 127-134
compute the weights and the output; line 135 then evaluates
`attn.view(bs, self.num_head, -1)`: `bs` is a module-scope name module.py
never binds (NameError), and `self.num_head` is an attribute
ScaleDotAttention.__init__ never assigns (AttributeError), both passed
here explicitly.  Only when both exist is the pair returned. -/
noncomputable def scaledot_forward (bs? : Option Nat) (num_head? : Option Nat)
    (temperature : ℝ) (q k v : Tensor3)
    (mask : Option (Nat → Nat → Nat → Bool)) :
    Except PyError (OTensor3 × OTensor3) :=
  let attn := sdpa_attn temperature q k mask
  let output := bmm_weights attn v
  match bs? with
  | none => .error (.nameError "bs")
  | some bs =>
    match num_head? with
    | none => .error (.attributeError "num_head")
    | some nh => .ok (output, attn_view3 bs nh attn)

/-- C2: evaluation at the failing input.  Query of one step (T_q = 1),
T_k = 4, temperature 1, mask true everywhere except key index 2.  Because
self.softmax is nn.Softmax(dim=1) and the bmm score tensor is
(batch·head, T_q, T_k), the softmax normalizes over the query-time axis,
not the key-time axis: each key column is normalized alone, so the weight
at index 2 happens to be 1, but every masked column is exp(-inf)/0 — the
float NaN — not approximately 0; and forward then raises NameError on the
unbound module-scope name bs at line 135, so nothing is returned at all. -/
theorem scaledot_softmax_axis_bug :
    ((sdpa_attn 1 ⟨1, 1, 1, fun _ _ _ => 1⟩ ⟨1, 4, 1, fun _ _ _ => 1⟩
        (some (fun _ _ t => decide (t ≠ 2)))).data 0 0 2 = some 1) ∧
    ((sdpa_attn 1 ⟨1, 1, 1, fun _ _ _ => 1⟩ ⟨1, 4, 1, fun _ _ _ => 1⟩
        (some (fun _ _ t => decide (t ≠ 2)))).data 0 0 0 = none) ∧
    ((sdpa_attn 1 ⟨1, 1, 1, fun _ _ _ => 1⟩ ⟨1, 4, 1, fun _ _ _ => 1⟩
        (some (fun _ _ t => decide (t ≠ 2)))).data 0 0 0 ≠ some 0) ∧
    (scaledot_forward none none 1 ⟨1, 1, 1, fun _ _ _ => 1⟩
        ⟨1, 4, 1, fun _ _ _ => 1⟩ ⟨1, 4, 1, fun _ _ _ => 1⟩
        (some (fun _ _ t => decide (t ≠ 2))) = .error (.nameError "bs")) := by
  have h2 : (sdpa_attn 1 ⟨1, 1, 1, fun _ _ _ => 1⟩ ⟨1, 4, 1, fun _ _ _ => 1⟩
      (some (fun _ _ t => decide (t ≠ 2)))).data 0 0 2 = some 1 := by
    simp only [sdpa_attn, softmax_dim1, masked_fill, scale_by, bmm,
      transpose12, expO, Finset.sum_range_one]
    norm_num [Real.exp_ne_zero]
  have h0 : (sdpa_attn 1 ⟨1, 1, 1, fun _ _ _ => 1⟩ ⟨1, 4, 1, fun _ _ _ => 1⟩
      (some (fun _ _ t => decide (t ≠ 2)))).data 0 0 0 = none := by
    simp only [sdpa_attn, softmax_dim1, masked_fill, scale_by, bmm,
      transpose12, expO, Finset.sum_range_one]
    norm_num
  refine ⟨h2, h0, ?_, rfl⟩
  rw [h0]
  intro h
  exact Option.noConfusion h

/-- torch.zeros((a, b, c)). -/
def zeros3 (a b c : Nat) : Tensor3 := ⟨a, b, c, fun _ _ _ => 0⟩

/-- The uniform initialization the loop of lines 160-161 builds, as it
would execute were bs and enc_len bound: start from zeros (bs, num_head,
ts) and give batch item idx the value 1/sl on its first sl key positions
(all heads). -/
noncomputable def lazy_init (bs num_head ts : Nat) (enc_len : List Nat) :
    Tensor3 :=
  { d0 := bs, d1 := num_head, d2 := ts,
    data := fun idx _ t =>
      match enc_len.get? idx with
      | some sl => if t < sl then 1 / (sl : ℝ) else 0
      | none => 0 }

/-- Lines 163-178 of LocationAwareAttention.forward, with prev_att in
hand.  Line 164 applies loc_conv and loc_proj to prev_att; line 165 then
reshapes with the module-scope name dim, which module.py never binds
(NameError); line 169 reads the attribute self.k, which no method of the
class ever assigns (attrK? is its value were it set: AttributeError);
line 173 applies self.softmax to the local name attn, which no earlier
statement of the method assigns (UnboundLocalError).  No execution path
survives line 173, so the tensor values of lines 164-172 are never
observable and the output (line 174), reshape (line 175), prev_att update
(line 176) and return (line 178) are all unreachable. -/
def locattn_body (dim? : Option Nat) (attrK? : Option Tensor3)
    (num_head : Nat) (pa : Tensor3) (q k v : Tensor3)
    (mask : Option (Nat → Nat → Nat → Bool)) :
    Except PyError (OTensor3 × OTensor3) :=
  match dim? with
  | none => .error (.nameError "dim")
  | some _ =>
    match attrK? with
    | none => .error (.attributeError "k")
    | some _ => .error (.unboundLocal "attn")

/-- LocationAwareAttention.forward (module.py lines 155-178).  When
prev_att is None the lazy-initialization branch of lines 158-161 runs
first: line 159 evaluates the module-scope name bs, which module.py never
binds (NameError, raised before the zeros tensor is assigned), and line
160 then iterates the likewise unbound module-scope name enc_len. -/
noncomputable def locattn_forward (bs? : Option Nat)
    (enc_len? : Option (List Nat)) (dim? : Option Nat)
    (attrK? : Option Tensor3) (num_head : Nat) (prev_att : Option Tensor3)
    (q k v : Tensor3) (mask : Option (Nat → Nat → Nat → Bool)) :
    Except PyError (OTensor3 × OTensor3) :=
  let ts := k.d1
  match prev_att with
  | none =>
    match bs? with
    | none => .error (.nameError "bs")
    | some bs =>
      match enc_len? with
      | none => .error (.nameError "enc_len")
      | some enc_len =>
        locattn_body dim? attrK? num_head (lazy_init bs num_head ts enc_len)
          q k v mask
  | some pa => locattn_body dim? attrK? num_head pa q k v mask

/-- The value of self.prev_att after a forward call (which always raises):
line 159 assigns the zeros tensor before line 160 raises when bs is bound
but enc_len is not; when both are bound the loop completes the uniform
initialization and the later failure (at line 165 or beyond) leaves it in
place; when bs is unbound, or prev_att was already set, line 176 is never
reached and the field keeps its previous value. -/
noncomputable def locattn_state_after (bs? : Option Nat)
    (enc_len? : Option (List Nat)) (num_head : Nat)
    (prev_att : Option Tensor3) (ts : Nat) : Option Tensor3 :=
  match prev_att with
  | some pa => some pa
  | none =>
    match bs? with
    | none => none
    | some bs =>
      match enc_len? with
      | none => some (zeros3 bs num_head ts)
      | some enc_len => some (lazy_init bs num_head ts enc_len)

/-- Two successive forward calls on one instance with no reset_mem in
between: the second call sees the prev_att state the first call left. -/
noncomputable def locattn_two_calls (bs? : Option Nat)
    (enc_len? : Option (List Nat)) (dim? : Option Nat)
    (attrK? : Option Tensor3) (num_head : Nat) (q1 k1 v1 q2 k2 v2 : Tensor3)
    (m1 m2 : Option (Nat → Nat → Nat → Bool)) :
    Except PyError (OTensor3 × OTensor3) ×
      Except PyError (OTensor3 × OTensor3) :=
  let r1 := locattn_forward bs? enc_len? dim? attrK? num_head none q1 k1 v1 m1
  let st1 := locattn_state_after bs? enc_len? num_head none k1.d1
  let r2 := locattn_forward bs? enc_len? dim? attrK? num_head st1 q2 k2 v2 m2
  (r1, r2)

/-- C4: evaluation at the failing input.  After reset_mem, a first
forward call with T_k = 5 raises NameError on the unbound module-scope
name bs at line 159, so prev_att is never initialized at all; the uniform
initialization the claim describes is indeed what the loop of lines
160-161 would build were bs and enc_len bound — for enc_len = [3] and
ts = 5 it sums to 1 over positions 0..2 and is 0 at positions 3 and 4 —
but the code never constructs it. -/
theorem locattn_lazy_init_bug :
    (locattn_forward none none none none 1 none ⟨1, 1, 8, fun _ _ _ => 0⟩
        ⟨1, 5, 8, fun _ _ _ => 0⟩ ⟨1, 5, 8, fun _ _ _ => 0⟩ none =
      .error (.nameError "bs")) ∧
    (locattn_state_after none none 1 none 5 = none) ∧
    (∑ t ∈ Finset.range 5, (lazy_init 1 1 5 [3]).data 0 0 t = 1) ∧
    ((lazy_init 1 1 5 [3]).data 0 0 3 = 0) ∧
    ((lazy_init 1 1 5 [3]).data 0 0 4 = 0) := by
  refine ⟨rfl, rfl, ?_, ?_, ?_⟩
  · simp only [lazy_init, Finset.sum_range_succ, Finset.sum_range_zero]
    norm_num
  · norm_num [lazy_init]
  · norm_num [lazy_init]

/-- C7: claim falsified on a concrete two-call sequence, first with batch
size 4 and then with batch size 2 and no reset_mem in between: the
sequence does fail, but already at the first call and with a NameError on
the unbound module-scope name bs, not with the claimed shape-mismatch
error (and no stale prev_att ever exists to be broadcast). -/
theorem locattn_two_call_claim_false :
    ((locattn_two_calls none none none none 1
        ⟨4, 1, 8, fun _ _ _ => 0⟩ ⟨4, 5, 8, fun _ _ _ => 0⟩
        ⟨4, 5, 8, fun _ _ _ => 0⟩ ⟨2, 1, 8, fun _ _ _ => 0⟩
        ⟨2, 5, 8, fun _ _ _ => 0⟩ ⟨2, 5, 8, fun _ _ _ => 0⟩ none none).1 =
      .error (.nameError "bs")) ∧
    ((locattn_two_calls none none none none 1
        ⟨4, 1, 8, fun _ _ _ => 0⟩ ⟨4, 5, 8, fun _ _ _ => 0⟩
        ⟨4, 5, 8, fun _ _ _ => 0⟩ ⟨2, 1, 8, fun _ _ _ => 0⟩
        ⟨2, 5, 8, fun _ _ _ => 0⟩ ⟨2, 5, 8, fun _ _ _ => 0⟩ none none).2 =
      .error (.nameError "bs")) ∧
    ((Except.error (PyError.nameError "bs") :
        Except PyError (OTensor3 × OTensor3)) ≠ .error .shapeError) := by
  refine ⟨rfl, rfl, ?_⟩
  intro h
  simp at h

/-- C7 (amended): with the module scope as written, both calls of the
batch-4 then batch-2 sequence fail — each with a NameError on the unbound
name bs, the first call already failing before prev_att is ever assigned
— so the error is not a shape mismatch and no stale state is ever
silently broadcast into wrong numerical results. -/
theorem locattn_two_call_amended (num_head : Nat) (q1 k1 v1 q2 k2 v2 : Tensor3)
    (m1 m2 : Option (Nat → Nat → Nat → Bool)) :
    locattn_two_calls none none none none num_head q1 k1 v1 q2 k2 v2 m1 m2 =
      (.error (.nameError "bs"), .error (.nameError "bs")) ∧
    locattn_state_after none none num_head none k1.d1 = none :=
  ⟨rfl, rfl⟩

/-- C10: every call of LocationAwareAttention.forward raises an exception
before returning, for all inputs, in both memory states, and even if any
subset of the unbound names bs, enc_len, dim or the missing attribute
self.k were supplied: with prev_att unset the lazy init raises on bs or
enc_len; otherwise line 165 raises on dim, line 169 on the never-assigned
self.k, and line 173 on the never-assigned local attn — so no attention
output is produced and prev_att is never updated by line 176. -/
theorem locattn_forward_always_raises (bs? : Option Nat)
    (enc_len? : Option (List Nat)) (dim? : Option Nat)
    (attrK? : Option Tensor3) (num_head : Nat) (prev_att : Option Tensor3)
    (q k v : Tensor3) (mask : Option (Nat → Nat → Nat → Bool)) :
    ∃ e, locattn_forward bs? enc_len? dim? attrK? num_head prev_att q k v mask
      = .error e := by
  cases prev_att <;> cases bs? <;> cases enc_len? <;> cases dim? <;>
    cases attrK? <;> exact ⟨_, rfl⟩
